import Mathlib

/-!
Shallow embedding of the rad2-gcp-zero exam-lifecycle service
(`app/main.py`, `app/ia_infer.py`, `app/core/config.py`).

Python strings are embedded as Lean `String` (or `List Char` where
character-level reasoning is needed), dictionaries with fixed keys as
structures whose optional fields are `Option`-valued (mirroring `dict.get`),
and I/O collaborators (Google Cloud Storage, Firestore, nibabel) as explicit
outcome oracles passed to each function: `none`/`true` means the call
succeeds, `some msg`/`false` means it raises, with `msg` the exception text.
Timestamps (`created_at`, `updated_at`, `SERVER_TIMESTAMP`) are environment
values with no control-flow influence and are not modelled.
-/

namespace Rad2

/-- From `app/core/config.py`: default upload bucket name. -/
def GCS_UPLOAD_BUCKET : String := "rad2-459117-uploads"

/-- From `app/core/config.py`: default output bucket name. -/
def GCS_OUTPUT_BUCKET : String := "rad2-459117-outputs"

/-- From `app/core/config.py`: Firestore collection for exams. -/
def FIRESTORE_COLLECTION_EXAMS : String := "exams"

/-- Python `s.split(sep)` for a single-character separator: splits at every
occurrence, keeping empty pieces (`"".split(sep) == [""]`). -/
def py_split (sep : Char) : List Char → List (List Char)
  | [] => [[]]
  | c :: rest =>
    let r := py_split sep rest
    if c = sep then [] :: r
    else (c :: r.headD []) :: r.tail

/-- Python `s.startswith(pre)`, on the character sequences. -/
def str_startswith (s pre : String) : Bool :=
  pre.data.isPrefixOf s.data

/-- Python truthiness of an optional string (`if not x` is true exactly when
`x` is `None` or the empty string). -/
def pyTruthy : Option String → Bool
  | none => false
  | some s => !s.data.isEmpty

/-- Python `str(x)` / f-string rendering of an optional string:
`None` renders as the text "None". -/
def pyStr : Option String → String
  | none => "None"
  | some s => s

/-- The Firestore exam document created by `upload_cbct_endpoint`
(`app/main.py` lines 138-151).  Fields read elsewhere via `dict.get` are
`Option`-valued; `none` stands for Python `None` (or an absent key). -/
structure ExamRecord where
  exam_id : String := ""
  status : Option String := none
  original_filenames : List String := []
  gcs_raw_file_paths : List String := []
  gcs_principal_nifti_path : Option String := none
  gcs_output_mask_path : Option String := none
  gcs_output_findings_path : Option String := none
  gcs_laudo_pdf_path : Option String := none
  error_message : Option String := none
  deriving DecidableEq, Repr

/-- `allowed_initial_status` in `analisar_cbct_endpoint` (`app/main.py:246`). -/
def allowed_initial_status : String := "uploaded"

/-- `processing_status` in `analisar_cbct_endpoint` (`app/main.py:247`). -/
def processing_status : String := "processing_ia_simple"

/-- `final_statuses` in `analisar_cbct_endpoint` (`app/main.py:248`). -/
def final_statuses : List String :=
  ["processed_success_simple", "processed_error_simple",
   "error_no_nifti_path", "error_processing_fatal"]

/-- Response of the analyze endpoint: the no-op JSON answer, a raised
`HTTPException(code, detail)`, or the 202 scheduling answer. -/
inductive AnalyzeResponse where
  | alreadyInProgress
  | httpError (code : Nat) (detail : String)
  | accepted (msg : String)
  deriving DecidableEq, Repr

/-- Observable side effects of one `analisar_cbct_endpoint` call:
the background task scheduled (with its `(exam_id, path)` arguments), and
the status value successfully written to the exam document, if any. -/
structure AnalyzeEffects where
  scheduled_task : Option (String × String) := none
  status_write : Option String := none
  deriving DecidableEq, Repr

/-- `analisar_cbct_endpoint` (`app/main.py` lines 242-275), from the point
where the exam document has been fetched.  `exam_data` is the document,
`errUpdateOk` tells whether the guarded Firestore update to
`error_no_nifti_path` (line 265, its failure swallowed) succeeds. -/
def analisar_cbct_endpoint (exam_id : String) (exam_data : ExamRecord)
    (errUpdateOk : Bool) : AnalyzeResponse × AnalyzeEffects :=
  let current_status := exam_data.status
  if current_status = some processing_status then
    (.alreadyInProgress, {})
  else if current_status.any (fun s => final_statuses.contains s) then
    (.httpError 409
      ("Exame já processado ou em estado final: " ++ pyStr current_status ++ "."),
     {})
  else if current_status ≠ some allowed_initial_status then
    (.httpError 400
      ("Exame em estado inválido para iniciar análise: " ++ pyStr current_status),
     {})
  else
    let principal_nifti_gcs_path := exam_data.gcs_principal_nifti_path
    if !pyTruthy principal_nifti_gcs_path
        || !(str_startswith (principal_nifti_gcs_path.getD "") "gs://") then
      (.httpError 400
        "Caminho GCS do arquivo NIfTI principal inválido ou não encontrado nos metadados.",
       { status_write := if errUpdateOk then some "error_no_nifti_path" else none })
    else
      (.accepted "Análise SIMPLES iniciada em background. Verifique o status.",
       { scheduled_task := some (exam_id, principal_nifti_gcs_path.getD "") })

/-- Claim C1: on an existing exam record the StartAnalysis guards run in
order against the persisted status: `processing_ia_simple` is a non-error
no-op; a terminal status is rejected with 409; any other non-`uploaded`
status is rejected with 400; none of those three cases schedules a task,
and a task is scheduled only when the status is `uploaded`. -/
theorem analisar_guards (exam_id : String) (d : ExamRecord) (updOk : Bool) :
    (d.status = some processing_status →
      analisar_cbct_endpoint exam_id d updOk = (.alreadyInProgress, {}))
    ∧ (∀ s, d.status = some s → s ∈ final_statuses →
        analisar_cbct_endpoint exam_id d updOk =
          (.httpError 409 ("Exame já processado ou em estado final: " ++ s ++ "."), {}))
    ∧ (d.status ≠ some processing_status →
        (∀ s, d.status = some s → s ∉ final_statuses) →
        d.status ≠ some allowed_initial_status →
        analisar_cbct_endpoint exam_id d updOk =
          (.httpError 400
            ("Exame em estado inválido para iniciar análise: " ++ pyStr d.status), {}))
    ∧ ((analisar_cbct_endpoint exam_id d updOk).2.scheduled_task ≠ none →
        d.status = some allowed_initial_status) := by
  refine ⟨?_, ?_, ?_, ?_⟩
  · intro h
    simp [analisar_cbct_endpoint, h]
  · intro s hs hmem
    have hsne : s ≠ processing_status := by
      intro h; subst h; exact absurd hmem (by decide)
    simp only [analisar_cbct_endpoint, hs]
    rw [if_neg (by simpa using hsne)]
    rw [if_pos (show (some s).any (fun t => final_statuses.contains t) = true from
      List.elem_iff.mpr hmem)]
    rfl
  · intro h1 h2 h3
    simp only [analisar_cbct_endpoint]
    rw [if_neg h1]
    have hany : ¬(d.status.any (fun t => final_statuses.contains t) = true) := by
      cases hd : d.status with
      | none => simp [Option.any]
      | some s =>
        intro hc
        exact h2 s hd (List.elem_iff.mp hc)
    rw [if_neg hany, if_pos h3]
  · intro h
    by_contra hne
    apply h
    simp only [analisar_cbct_endpoint]
    repeat' split
    all_goals simp_all

/-- Witness for C1 at a terminal status: the 409 conflict branch, with no
task scheduled. -/
theorem analisar_guards_witness :
    analisar_cbct_endpoint "e1" { status := some "processed_error_simple" } true =
      (.httpError 409 "Exame já processado ou em estado final: processed_error_simple.", {}) :=
  (analisar_guards "e1" { status := some "processed_error_simple" } true).2.1
    "processed_error_simple" rfl (by decide)

/-- The dictionary returned by `executar_inferencia_simples_gcs`
(`app/ia_infer.py` lines 127-131 and 146-150), read through `dict.get`:
`none` stands for an absent key or a `None` value. -/
structure InferResults where
  success : Bool := false
  error_message : Option String := none
  output_mask_gcs_path : Option String := none
  output_achados_gcs_path : Option String := none
  deriving DecidableEq, Repr

/-- Outcome of the call to `executar_inferencia_simples_gcs` inside the
background task: either it returns a result dictionary, or an exception
with the given text escapes it (`app/main.py` lines 183-210). -/
inductive StepOutcome where
  | returned (results : InferResults)
  | raised (msg : String)
  deriving DecidableEq, Repr

/-- A partial Firestore update dictionary as built by the background task:
`status` is always present; the other fields are present iff the outer
`Option` is `some` (the inner `Option` is the stored value, which may be
Python `None`).  `updated_at` (always `SERVER_TIMESTAMP`) is not modelled. -/
structure UpdateData where
  status : String
  gcs_output_mask_path : Option (Option String) := none
  gcs_output_findings_path : Option (Option String) := none
  error_message : Option (Option String) := none
  deriving DecidableEq, Repr

/-- The `update_data` dictionary of `run_simple_analysis_background`
(`app/main.py` lines 189-210), as a function of the step outcome. -/
def update_data : StepOutcome → UpdateData
  | .returned results =>
    if results.success then
      { status := "processed_success_simple"
        gcs_output_mask_path := some results.output_mask_gcs_path
        gcs_output_findings_path := some results.output_achados_gcs_path
        error_message := some none }
    else
      { status := "processed_error_simple"
        error_message :=
          some (some (results.error_message.getD "Erro desconhecido na IA simples."))
        gcs_output_findings_path :=
          if pyTruthy results.output_achados_gcs_path then
            some results.output_achados_gcs_path
          else none }
  | .raised msg =>
    { status := "error_processing_fatal"
      error_message := some (some ("Erro fatal na análise: " ++ msg)) }

/-- Collaborator outcomes for one run of the background task:
construction of the task-local Firestore client (`app/main.py:167`), the
initial status update (`:177`), the segmentation step call (`:184`), and the
final update (`:214`). -/
structure BgEnv where
  firestore_client_ok : Bool
  initial_update_ok : Bool
  step : StepOutcome
  final_update_ok : Bool
  deriving DecidableEq, Repr

/-- Observable effects of one background-task run: whether the segmentation
step was invoked, and the Firestore updates that were actually persisted,
in order.  A raised Firestore update is modelled as not persisted. -/
structure BgTrace where
  step_invoked : Bool
  writes : List UpdateData
  deriving DecidableEq, Repr

/-- The initial update written by the background task (`app/main.py:177`). -/
def processing_write : UpdateData := { status := "processing_ia_simple" }

/-- `run_simple_analysis_background` (`app/main.py` lines 163-217): abort
with no effects if the Firestore client cannot be built or the initial
update raises; otherwise invoke the step, build `update_data`, and attempt
the final write (its failure is logged only). -/
def run_simple_analysis_background (env : BgEnv) : BgTrace :=
  if !env.firestore_client_ok then
    { step_invoked := false, writes := [] }
  else if !env.initial_update_ok then
    { step_invoked := false, writes := [] }
  else
    { step_invoked := true
      writes := [processing_write] ++
        (if env.final_update_ok then [update_data env.step] else []) }

/-- Applying one partial update dictionary to an exam document. -/
def apply_update (r : ExamRecord) (u : UpdateData) : ExamRecord :=
  { r with
    status := some u.status
    gcs_output_mask_path := u.gcs_output_mask_path.getD r.gcs_output_mask_path
    gcs_output_findings_path := u.gcs_output_findings_path.getD r.gcs_output_findings_path
    error_message := u.error_message.getD r.error_message }

/-- Applying a sequence of persisted updates to an exam document. -/
def apply_writes (r : ExamRecord) (ws : List UpdateData) : ExamRecord :=
  ws.foldl apply_update r

/-- Claim C2: a background-task run that reaches its final write persists
exactly the processing write followed by `update_data`; on a reported
success the final write sets `processed_success_simple`, both output paths
together, and clears `error_message`; on a reported failure it sets
`processed_error_simple`, a non-null `error_message`, and preserves a
findings path the step produced; on an escaped exception it sets
`error_processing_fatal` with the exception text. -/
theorem bg_final_write (env : BgEnv)
    (hc : env.firestore_client_ok = true) (hi : env.initial_update_ok = true)
    (hf : env.final_update_ok = true) :
    (run_simple_analysis_background env).writes =
      [processing_write, update_data env.step]
    ∧ (∀ results, env.step = .returned results → results.success = true →
        update_data env.step =
          { status := "processed_success_simple"
            gcs_output_mask_path := some results.output_mask_gcs_path
            gcs_output_findings_path := some results.output_achados_gcs_path
            error_message := some none })
    ∧ (∀ results, env.step = .returned results → results.success = false →
        (update_data env.step).status = "processed_error_simple"
        ∧ (∃ msg, (update_data env.step).error_message = some (some msg))
        ∧ (pyTruthy results.output_achados_gcs_path = true →
            (update_data env.step).gcs_output_findings_path =
              some results.output_achados_gcs_path))
    ∧ (∀ msg, env.step = .raised msg →
        update_data env.step =
          { status := "error_processing_fatal"
            error_message := some (some ("Erro fatal na análise: " ++ msg)) }) := by
  refine ⟨by simp [run_simple_analysis_background, hc, hi, hf], ?_, ?_, ?_⟩
  · intro results hstep hsucc
    simp [hstep, update_data, hsucc]
  · intro results hstep hsucc
    refine ⟨by simp [hstep, update_data, hsucc],
      ⟨results.error_message.getD "Erro desconhecido na IA simples.",
        by simp [hstep, update_data, hsucc]⟩, ?_⟩
    intro htruthy
    simp [hstep, update_data, hsucc, htruthy]
  · intro msg hstep
    simp [hstep, update_data]

/-- Witness for C2: a happy-path run whose step reports success. -/
theorem bg_final_write_witness :
    (run_simple_analysis_background
      { firestore_client_ok := true, initial_update_ok := true
        final_update_ok := true
        step := .returned
          { success := true, output_mask_gcs_path := some "gs://out/e1/m.nii.gz"
            output_achados_gcs_path := some "gs://out/e1/a.txt" } }).writes =
      [processing_write,
       update_data (.returned
          { success := true, output_mask_gcs_path := some "gs://out/e1/m.nii.gz"
            output_achados_gcs_path := some "gs://out/e1/a.txt" })]
    ∧ update_data (.returned
          { success := true, output_mask_gcs_path := some "gs://out/e1/m.nii.gz"
            output_achados_gcs_path := some "gs://out/e1/a.txt" }) =
        { status := "processed_success_simple"
          gcs_output_mask_path := some (some "gs://out/e1/m.nii.gz")
          gcs_output_findings_path := some (some "gs://out/e1/a.txt")
          error_message := some none } :=
  ⟨(bg_final_write _ rfl rfl rfl).1, (bg_final_write
      { firestore_client_ok := true, initial_update_ok := true
        final_update_ok := true
        step := .returned
          { success := true, output_mask_gcs_path := some "gs://out/e1/m.nii.gz"
            output_achados_gcs_path := some "gs://out/e1/a.txt" } }
      rfl rfl rfl).2.1 _ rfl rfl⟩

/-- Claim C6: if the record store cannot be reached at task start (client
construction or the initial `processing_ia_simple` update fails), the task
performs no further side effects: the step is not invoked, nothing is
persisted, and any exam record is left unchanged. -/
theorem bg_abort_without_side_effects (env : BgEnv) (r : ExamRecord)
    (h : env.firestore_client_ok = false ∨ env.initial_update_ok = false) :
    (run_simple_analysis_background env).step_invoked = false
    ∧ (run_simple_analysis_background env).writes = []
    ∧ apply_writes r (run_simple_analysis_background env).writes = r := by
  rcases h with h | h
  · exact ⟨by simp [run_simple_analysis_background, h],
      by simp [run_simple_analysis_background, h],
      by simp [run_simple_analysis_background, h, apply_writes]⟩
  · cases hc : env.firestore_client_ok
    · exact ⟨by simp [run_simple_analysis_background, hc],
        by simp [run_simple_analysis_background, hc],
        by simp [run_simple_analysis_background, hc, apply_writes]⟩
    · exact ⟨by simp [run_simple_analysis_background, hc, h],
        by simp [run_simple_analysis_background, hc, h],
        by simp [run_simple_analysis_background, hc, h, apply_writes]⟩

/-- Witness for C6: client construction fails; the prior record survives. -/
theorem bg_abort_without_side_effects_witness :
    (run_simple_analysis_background
      { firestore_client_ok := false, initial_update_ok := true
        step := .raised "boom", final_update_ok := true }).step_invoked = false
    ∧ (run_simple_analysis_background
      { firestore_client_ok := false, initial_update_ok := true
        step := .raised "boom", final_update_ok := true }).writes = []
    ∧ apply_writes { status := some "uploaded" }
        (run_simple_analysis_background
          { firestore_client_ok := false, initial_update_ok := true
            step := .raised "boom", final_update_ok := true }).writes =
        { status := some "uploaded" } :=
  bg_abort_without_side_effects _ _ (Or.inl rfl)

/-- Blob key used for an uploaded file (`app/main.py:111`). -/
def blob_name (exam_id filename : String) : String := exam_id ++ "/" ++ filename

/-- `gs://{bucket}/{blob}` path as built at `app/main.py:117` and
`app/ia_infer.py:49`. -/
def gcs_path (bucket bname : String) : String := "gs://" ++ bucket ++ "/" ++ bname

/-- Upload-bucket path of a blob (`app/main.py:117`). -/
def gcs_upload_path (bname : String) : String := gcs_path GCS_UPLOAD_BUCKET bname

/-- The principal-NIfTI test of `app/main.py:123`:
`filename.lower().endswith((".nii", ".nii.gz"))`. -/
def is_principal_nifti_name (filename : String) : Bool :=
  let lowered := filename.data.map Char.toLower
  List.isSuffixOf ".nii".data lowered || List.isSuffixOf ".nii.gz".data lowered

/-- Loop state of the upload loop (`app/main.py` lines 101-104), plus the
set of blobs actually written to the upload bucket. -/
structure UploadLoop where
  gcs_file_paths : List String := []
  original_filenames : List String := []
  principal_nifti_gcs_path : Option String := none
  stored_blobs : List String := []
  deriving DecidableEq, Repr

/-- The per-file upload loop (`app/main.py` lines 108-131).  `uploadErr i`
is the exception text raised while storing the `i`-th file (`none` when the
store succeeds); a raised iteration stores nothing and fails the request. -/
def upload_loop (exam_id : String) (uploadErr : Nat → Option String) :
    List String → Nat → UploadLoop → Except (String × String × UploadLoop) UploadLoop
  | [], _, st => .ok st
  | filename :: rest, i, st =>
    match uploadErr i with
    | some e => .error (filename, e, st)
    | none =>
      let bname := blob_name exam_id filename
      let current_gcs_path := gcs_upload_path bname
      upload_loop exam_id uploadErr rest (i + 1)
        { gcs_file_paths := st.gcs_file_paths ++ [current_gcs_path]
          original_filenames := st.original_filenames ++ [filename]
          principal_nifti_gcs_path :=
            if is_principal_nifti_name filename && st.principal_nifti_gcs_path.isNone then
              some current_gcs_path
            else st.principal_nifti_gcs_path
          stored_blobs := st.stored_blobs ++ [bname] }

/-- Response of the upload endpoint: 201 with the created document, or a
raised `HTTPException`. -/
inductive UploadResponse where
  | created (exam_id : String) (data : ExamRecord)
  | httpError (code : Nat) (detail : String)
  deriving DecidableEq, Repr

/-- Observable outcome of one `upload_cbct_endpoint` call: the response,
the blobs left in the upload bucket, and the Firestore document created. -/
structure UploadOutcome where
  response : UploadResponse
  stored_blobs : List String
  record_created : Option ExamRecord
  deriving DecidableEq, Repr

/-- `upload_cbct_endpoint` (`app/main.py` lines 100-161).  `exam_id` stands
for the generated UUID, `files` for the uploaded filenames in arrival
order, and `persistErr` for the exception text of the Firestore `set`
(`none` when it succeeds). -/
def upload_cbct_endpoint (exam_id : String) (files : List String)
    (uploadErr : Nat → Option String) (persistErr : Option String) : UploadOutcome :=
  match upload_loop exam_id uploadErr files 0 {} with
  | .error (filename, e, st) =>
    { response := .httpError 500 ("Erro no upload GCS do arquivo " ++ filename ++ ": " ++ e)
      stored_blobs := st.stored_blobs
      record_created := none }
  | .ok st =>
    if st.gcs_file_paths.isEmpty then
      { response := .httpError 400 "Nenhum arquivo foi enviado."
        stored_blobs := st.stored_blobs
        record_created := none }
    else
      let exam_data : ExamRecord :=
        { exam_id := exam_id
          status := some "uploaded"
          original_filenames := st.original_filenames
          gcs_raw_file_paths := st.gcs_file_paths
          gcs_principal_nifti_path := st.principal_nifti_gcs_path }
      match persistErr with
      | some e =>
        { response := .httpError 500 ("Erro ao criar registro do exame no Firestore: " ++ e)
          stored_blobs := st.stored_blobs
          record_created := none }
      | none =>
        { response := .created exam_id exam_data
          stored_blobs := st.stored_blobs
          record_created := some exam_data }

/-- First-match principal selection, as a closed form of the loop: the path
of the first uploaded filename passing the principal-NIfTI test. -/
def principal_of (exam_id : String) (files : List String) : Option String :=
  (files.find? is_principal_nifti_name).map fun f => gcs_upload_path (blob_name exam_id f)

/-- Left-biased choice on optional strings (`x if x is not None else y`). -/
def opt_or (a b : Option String) : Option String :=
  match a with
  | some p => some p
  | none => b

theorem opt_or_none_right (a : Option String) : opt_or a none = a := by
  cases a <;> rfl

/-- Closed form of a fully successful upload loop. -/
theorem upload_loop_ok_eq (exam_id : String) (uploadErr : Nat → Option String)
    (files : List String) (i : Nat) (st : UploadLoop)
    (h : ∀ j, j < files.length → uploadErr (i + j) = none) :
    upload_loop exam_id uploadErr files i st = .ok
      { gcs_file_paths :=
          st.gcs_file_paths ++ files.map (fun f => gcs_upload_path (blob_name exam_id f))
        original_filenames := st.original_filenames ++ files
        principal_nifti_gcs_path :=
          opt_or st.principal_nifti_gcs_path (principal_of exam_id files)
        stored_blobs := st.stored_blobs ++ files.map (blob_name exam_id) } := by
  induction files generalizing i st with
  | nil =>
    simp [upload_loop, principal_of, opt_or_none_right]
  | cons f rest ih =>
    have h0 : uploadErr i = none := by simpa using h 0 (by simp)
    have hrest : ∀ j, j < rest.length → uploadErr (i + 1 + j) = none := by
      intro j hj
      have := h (j + 1) (by simpa using Nat.succ_lt_succ hj)
      simpa [Nat.add_assoc, Nat.add_comm 1 j] using this
    simp only [upload_loop, h0]
    rw [ih (i + 1) _ hrest]
    simp only [Except.ok.injEq, UploadLoop.mk.injEq]
    refine ⟨by simp, by simp, ?_, by simp⟩
    simp only [principal_of]
    cases hsp : st.principal_nifti_gcs_path with
    | some q => simp [opt_or]
    | none =>
      by_cases hpf : is_principal_nifti_name f
      · simp [hpf, opt_or, List.find?_cons_of_pos _ hpf]
      · simp [hpf, opt_or, List.find?_cons_of_neg _ (by simpa using hpf)]

/-- Closed form of an upload loop whose `k`-th store raises, the earlier
ones succeeding: the request fails on that file and exactly the first `k`
blobs are stored. -/
theorem upload_loop_fail_eq (exam_id : String) (uploadErr : Nat → Option String)
    (files : List String) (i : Nat) (st : UploadLoop) (k : Nat) (e : String)
    (hk : k < files.length) (hfail : uploadErr (i + k) = some e)
    (hok : ∀ j, j < k → uploadErr (i + j) = none) :
    ∃ st', upload_loop exam_id uploadErr files i st =
        .error (files.get ⟨k, hk⟩, e, st')
      ∧ st'.stored_blobs = st.stored_blobs ++ (files.take k).map (blob_name exam_id) := by
  induction files generalizing i k st with
  | nil => exact absurd hk (by simp)
  | cons f rest ih =>
    cases k with
    | zero =>
      refine ⟨st, ?_, by simp⟩
      simp only [upload_loop,
        show uploadErr i = some e from by simpa using hfail]
      rfl
    | succ k =>
      have h0 : uploadErr i = none := by simpa using hok 0 (Nat.succ_pos k)
      have hfail' : uploadErr (i + 1 + k) = some e := by
        simpa [Nat.add_assoc, Nat.add_comm 1 k] using hfail
      have hok' : ∀ j, j < k → uploadErr (i + 1 + j) = none := by
        intro j hj
        have := hok (j + 1) (Nat.succ_lt_succ hj)
        simpa [Nat.add_assoc, Nat.add_comm 1 j] using this
      obtain ⟨st2, heq, hblobs⟩ := ih (i + 1)
        { gcs_file_paths := st.gcs_file_paths ++ [gcs_upload_path (blob_name exam_id f)]
          original_filenames := st.original_filenames ++ [f]
          principal_nifti_gcs_path :=
            if is_principal_nifti_name f && st.principal_nifti_gcs_path.isNone then
              some (gcs_upload_path (blob_name exam_id f))
            else st.principal_nifti_gcs_path
          stored_blobs := st.stored_blobs ++ [blob_name exam_id f] }
        k (Nat.lt_of_succ_lt_succ hk) hfail' hok'
      refine ⟨st2, ?_, ?_⟩
      · simp only [upload_loop, h0]
        exact heq
      · simpa [List.append_assoc] using hblobs

/-- Closed form of the exam document created by a fully successful upload. -/
def created_record (exam_id : String) (files : List String) : ExamRecord :=
  { exam_id := exam_id
    status := some "uploaded"
    original_filenames := files
    gcs_raw_file_paths := files.map fun f => gcs_upload_path (blob_name exam_id f)
    gcs_principal_nifti_path := principal_of exam_id files }

/-- Closed form of a fully successful upload request. -/
theorem upload_ok_eq (exam_id : String) (files : List String)
    (uploadErr : Nat → Option String)
    (hok : ∀ j, j < files.length → uploadErr j = none) (hne : files ≠ []) :
    upload_cbct_endpoint exam_id files uploadErr none =
      { response := .created exam_id (created_record exam_id files)
        stored_blobs := files.map (blob_name exam_id)
        record_created := some (created_record exam_id files) } := by
  have hloop := upload_loop_ok_eq exam_id uploadErr files 0 {} (by simpa using hok)
  cases files with
  | nil => exact absurd rfl hne
  | cons f rest =>
    simp only [upload_cbct_endpoint, hloop]
    simp [opt_or, created_record]

/-- Claim C5: a non-empty upload set that completes successfully yields a
record whose filename and path sequences have the upload set's length with
order preserved, the i-th path being the upload-bucket path of
`{examId}/{i-th filename}`; an empty upload set is rejected with 400
before any record is created. -/
theorem upload_record_invariants (exam_id : String) (files : List String)
    (uploadErr : Nat → Option String)
    (hok : ∀ j, j < files.length → uploadErr j = none) :
    (files = [] →
      (upload_cbct_endpoint exam_id files uploadErr none).response =
        .httpError 400 "Nenhum arquivo foi enviado."
      ∧ (upload_cbct_endpoint exam_id files uploadErr none).record_created = none)
    ∧ (files ≠ [] →
      ∃ r, (upload_cbct_endpoint exam_id files uploadErr none).record_created = some r
        ∧ (upload_cbct_endpoint exam_id files uploadErr none).response = .created exam_id r
        ∧ r.original_filenames = files
        ∧ r.gcs_raw_file_paths =
            files.map (fun f => gcs_upload_path (blob_name exam_id f))
        ∧ r.original_filenames.length = files.length
        ∧ r.gcs_raw_file_paths.length = files.length) := by
  constructor
  · intro hnil
    subst hnil
    exact ⟨rfl, rfl⟩
  · intro hne
    rw [upload_ok_eq exam_id files uploadErr hok hne]
    exact ⟨created_record exam_id files, rfl, rfl, rfl, rfl, rfl, by simp [created_record]⟩

/-- Witness for C5: two files, both stores and the record write succeed. -/
theorem upload_record_invariants_witness :
    (["scan.nii", "b.dcm"] : List String) ≠ []
    ∧ ∃ r, (upload_cbct_endpoint "e1" ["scan.nii", "b.dcm"] (fun _ => none) none).record_created = some r
        ∧ (upload_cbct_endpoint "e1" ["scan.nii", "b.dcm"] (fun _ => none) none).response = .created "e1" r
        ∧ r.original_filenames = ["scan.nii", "b.dcm"]
        ∧ r.gcs_raw_file_paths =
            (["scan.nii", "b.dcm"] : List String).map
              (fun f => gcs_upload_path (blob_name "e1" f))
        ∧ r.original_filenames.length = (["scan.nii", "b.dcm"] : List String).length
        ∧ r.gcs_raw_file_paths.length = (["scan.nii", "b.dcm"] : List String).length :=
  ⟨by decide,
    (upload_record_invariants "e1" ["scan.nii", "b.dcm"] (fun _ => none)
      (fun _ _ => rfl)).2 (by decide)⟩

/-- Claim C9: if storing the `k`-th file's blob raises, the whole request
fails with 500 and no record is created, while the blobs of the files
before it remain stored under the generated exam id. -/
theorem upload_partial_failure (exam_id : String) (files : List String)
    (uploadErr : Nat → Option String) (persistErr : Option String)
    (k : Nat) (e : String) (hk : k < files.length)
    (hfail : uploadErr k = some e) (hok : ∀ j, j < k → uploadErr j = none) :
    (upload_cbct_endpoint exam_id files uploadErr persistErr).response =
      .httpError 500
        ("Erro no upload GCS do arquivo " ++ files.get ⟨k, hk⟩ ++ ": " ++ e)
    ∧ (upload_cbct_endpoint exam_id files uploadErr persistErr).record_created = none
    ∧ (upload_cbct_endpoint exam_id files uploadErr persistErr).stored_blobs =
        (files.take k).map (blob_name exam_id) := by
  obtain ⟨st2, hloop, hblobs⟩ := upload_loop_fail_eq exam_id uploadErr files 0 {} k e hk
    (by simpa using hfail) (by simpa using hok)
  refine ⟨?_, ?_, ?_⟩
  · simp only [upload_cbct_endpoint, hloop]
  · simp only [upload_cbct_endpoint, hloop]
  · simp only [upload_cbct_endpoint, hloop]
    simpa using hblobs

/-- Witness for C9: the second store raises; only the first blob survives. -/
theorem upload_partial_failure_witness :
    (upload_cbct_endpoint "e1" ["a.nii", "b.dcm"]
        (fun j => if j = 1 then some "net down" else none) none).response =
      .httpError 500
        ("Erro no upload GCS do arquivo " ++
          (["a.nii", "b.dcm"] : List String).get ⟨1, by decide⟩ ++ ": " ++ "net down")
    ∧ (upload_cbct_endpoint "e1" ["a.nii", "b.dcm"]
        (fun j => if j = 1 then some "net down" else none) none).record_created = none
    ∧ (upload_cbct_endpoint "e1" ["a.nii", "b.dcm"]
        (fun j => if j = 1 then some "net down" else none) none).stored_blobs =
        ((["a.nii", "b.dcm"] : List String).take 1).map (blob_name "e1") :=
  upload_partial_failure "e1" ["a.nii", "b.dcm"]
    (fun j => if j = 1 then some "net down" else none) none 1 "net down"
    (by decide) rfl
    (fun j hj => by
      have h0 : j = 0 := Nat.lt_one_iff.mp hj
      subst h0
      rfl)

/-- Claim C4: the created record's principal input path is the path of the
first file, in upload order, passing the NIfTI-suffix test, and `none` when
no file passes; and StartAnalysis on an `uploaded` record whose principal
path is absent or does not start with `gs://` writes `error_no_nifti_path`
(when the store write succeeds), rejects with 400, and schedules no task. -/
theorem principal_selection_and_rejection (exam_id : String) :
    (∀ (files : List String) (uploadErr : Nat → Option String),
      (∀ j, j < files.length → uploadErr j = none) → files ≠ [] →
      ∀ r, (upload_cbct_endpoint exam_id files uploadErr none).record_created = some r →
        r.gcs_principal_nifti_path = principal_of exam_id files
        ∧ ((∀ f ∈ files, is_principal_nifti_name f = false) →
            r.gcs_principal_nifti_path = none))
    ∧ (∀ (d : ExamRecord) (updOk : Bool),
        d.status = some "uploaded" →
        (pyTruthy d.gcs_principal_nifti_path = false ∨
          str_startswith (d.gcs_principal_nifti_path.getD "") "gs://" = false) →
        (analisar_cbct_endpoint exam_id d updOk).1 =
          .httpError 400
            "Caminho GCS do arquivo NIfTI principal inválido ou não encontrado nos metadados."
        ∧ (analisar_cbct_endpoint exam_id d updOk).2.scheduled_task = none
        ∧ (updOk = true →
            (analisar_cbct_endpoint exam_id d updOk).2.status_write =
              some "error_no_nifti_path")) := by
  constructor
  · intro files uploadErr hok hne r hr
    rw [upload_ok_eq exam_id files uploadErr hok hne] at hr
    cases hr
    refine ⟨rfl, ?_⟩
    intro hnone
    simp only [created_record, principal_of]
    rw [List.find?_eq_none.mpr (by intro x hx; simp [hnone x hx])]
    rfl
  · intro d updOk hstat hbad
    have hcond : (!pyTruthy d.gcs_principal_nifti_path
        || !(str_startswith (d.gcs_principal_nifti_path.getD "") "gs://")) = true := by
      rcases hbad with h | h <;> simp [h]
    simp only [analisar_cbct_endpoint, hstat]
    rw [if_neg (by decide), if_neg (by decide), if_neg (by decide), if_pos hcond]
    refine ⟨rfl, rfl, ?_⟩
    intro hupd
    simp [hupd]

/-- Witness for C4: one non-NIfTI upload leaves the principal path `none`,
and StartAnalysis on the resulting `uploaded` record is rejected. -/
theorem principal_selection_and_rejection_witness :
    (∀ r, (upload_cbct_endpoint "e1" ["b.dcm"] (fun _ => none) none).record_created = some r →
      r.gcs_principal_nifti_path = principal_of "e1" ["b.dcm"]
      ∧ ((∀ f ∈ (["b.dcm"] : List String), is_principal_nifti_name f = false) →
          r.gcs_principal_nifti_path = none))
    ∧ ((analisar_cbct_endpoint "e1" { status := some "uploaded" } true).1 =
        .httpError 400
          "Caminho GCS do arquivo NIfTI principal inválido ou não encontrado nos metadados."
      ∧ (analisar_cbct_endpoint "e1" { status := some "uploaded" } true).2.scheduled_task = none
      ∧ (true = true →
          (analisar_cbct_endpoint "e1" { status := some "uploaded" } true).2.status_write =
            some "error_no_nifti_path")) :=
  ⟨(principal_selection_and_rejection "e1").1 ["b.dcm"] (fun _ => none)
      (fun _ _ => rfl) (by decide),
   (principal_selection_and_rejection "e1").2 { status := some "uploaded" } true rfl
      (Or.inl rfl)⟩

/-- Claim C10: the principal-NIfTI suffix test is case-insensitive: any
filename ending, in any letter case, in `.nii` or `.nii.gz` passes it,
because the filename is lower-cased before the suffix check. -/
theorem principal_suffix_case_insensitive (stem sfx : List Char) (name : String)
    (hname : name.data = stem ++ sfx)
    (hsfx : sfx.map Char.toLower = ".nii".data ∨ sfx.map Char.toLower = ".nii.gz".data) :
    is_principal_nifti_name name = true := by
  have key : ∀ (suf : List Char), sfx.map Char.toLower = suf →
      List.isSuffixOf suf (name.data.map Char.toLower) = true := by
    intro suf hsuf
    rw [hname, List.map_append, ← hsuf]
    exact List.isSuffixOf_iff_suffix.mpr (List.suffix_append _ _)
  show (List.isSuffixOf ".nii".data (name.data.map Char.toLower)
    || List.isSuffixOf ".nii.gz".data (name.data.map Char.toLower)) = true
  rcases hsfx with h | h
  · rw [Bool.or_eq_true]
    exact Or.inl (key _ h)
  · rw [Bool.or_eq_true]
    exact Or.inr (key _ h)

/-- Witness for C10: an upper-case `.NII.GZ` name passes the test. -/
theorem principal_suffix_case_insensitive_witness :
    is_principal_nifti_name "SCAN.NII.GZ" = true :=
  principal_suffix_case_insensitive "SCAN".data ".NII.GZ".data "SCAN.NII.GZ"
    (by decide) (Or.inr (by decide))

/-! ### Segmentation step (`app/ia_infer.py`)

The voxel values of the loaded volume (`img.get_fdata`) are embedded as a
flattened `List ℚ`; every operation the step performs on them (emptiness,
all-equal, percentile, elementwise strict comparison, sum) is shape
independent.  `np.nan` (the non-computable threshold) is embedded as
`none`.

CPython's float formatting enters the control flow: the f-strings at
`app/ia_infer.py:104` and `:114` put a conditional expression *inside the
format specifier* (`\x7blimiar:.2f if not np.isnan(limiar) else 'N/A'\x7d`),
so `format` receives the literal specifier
`.2f if not np.isnan(limiar) else 'N/A'` and raises `ValueError`.  The
specifier grammar check below follows CPython's
`parse_internal_render_format_spec` for float-like values. -/

/-- Alignment characters of the format-spec mini-language. -/
def is_align_char (c : Char) : Bool := c = '<' || c = '>' || c = '=' || c = '^'

/-- Drop a leading run of decimal digits. -/
def drop_digits : List Char → List Char
  | [] => []
  | c :: rest => if c.isDigit then drop_digits rest else c :: rest

/-- Drop an optional `[[fill]align]` pair. -/
def drop_fill_align : List Char → List Char
  | a :: b :: rest =>
    if is_align_char b then rest
    else if is_align_char a then b :: rest
    else a :: b :: rest
  | [a] => if is_align_char a then [] else [a]
  | [] => []

/-- Drop one leading character if it is among `cs`. -/
def drop_one_of (cs : List Char) : List Char → List Char
  | [] => []
  | c :: rest => if cs.contains c then rest else c :: rest

/-- Presentation types accepted for a float value. -/
def is_float_type_char (c : Char) : Bool :=
  c = 'e' || c = 'E' || c = 'f' || c = 'F' || c = 'g' || c = 'G' || c = 'n' || c = '%'

/-- Validity of a format specifier applied to a float:
`[[fill]align][sign][z][#][0][width][,|_][.precision][type]` with nothing
left over; `format` raises `ValueError` exactly when this is `false`. -/
def valid_float_format_spec (spec : List Char) : Bool :=
  let s := drop_fill_align spec
  let s := drop_one_of ['+', '-', ' '] s
  let s := drop_one_of ['z'] s
  let s := drop_one_of ['#'] s
  let s := drop_one_of ['0'] s
  let s := drop_digits s
  let s := drop_one_of [',', '_'] s
  match s with
  | '.' :: rest =>
    (match rest with
     | c :: _ =>
       if c.isDigit then
         (match drop_digits rest with
          | [] => true
          | [t] => is_float_type_char t
          | _ => false)
       else false
     | [] => false)
  | [] => true
  | [t] => is_float_type_char t
  | _ => false

/-- The literal format specifier the f-strings at `app/ia_infer.py:104` and
`:114` pass to `format`: everything between `:` and the closing brace,
conditional expression included. -/
def limiar_format_spec : List Char :=
  ".2f if not np.isnan(limiar) else ".data ++
    [Char.ofNat 39, 'N', '/', 'A', Char.ofNat 39]

/-- `np.percentile(dados, q)` with the default linear interpolation:
on the sorted values, the virtual index is `h = (n-1)*q/100` and the result
interpolates between the values at `⌊h⌋` and `⌈h⌉`. -/
def np_percentile (q : ℚ) (dados : List ℚ) : ℚ :=
  let sorted := List.insertionSort (· ≤ ·) dados
  let h : ℚ := ((dados.length : ℚ) - 1) * q / 100
  let lo := Int.floor h
  let hi := Int.ceil h
  let a_lo := sorted.getD lo.toNat 0
  let a_hi := sorted.getD hi.toNat 0
  a_lo + (h - (lo : ℚ)) * (a_hi - a_lo)

/-- The mask computation of `app/ia_infer.py` lines 93-102: an all-zero
mask and no threshold for empty or constant data, otherwise the binary
mask of voxels strictly above the 95th percentile. -/
def mascara_and_limiar (dados : List ℚ) : List ℕ × Option ℚ :=
  if dados.length = 0 || dados.all (fun x => decide (x = dados.headD 0)) then
    (dados.map fun _ => 0, none)
  else
    let limiar := np_percentile 95 dados
    (dados.map fun x => if limiar < x then 1 else 0, some limiar)

/-- `os.path.basename`, then `split('.')[0]` (`app/ia_infer.py:70-72`). -/
def nome_base_sem_ext (input_path : String) : String :=
  String.mk ((py_split '.' ((py_split '/' input_path.data).getLastD [])).headD [])

/-- Output-mask blob key (`app/ia_infer.py:74`). -/
def output_mask_gcs_blob_name (input_path folder : String) : String :=
  folder ++ "/" ++ nome_base_sem_ext input_path ++ "_mask_simple.nii.gz"

/-- Findings blob key (`app/ia_infer.py:75`), also used for the error log. -/
def output_achados_gcs_blob_name (input_path folder : String) : String :=
  folder ++ "/" ++ nome_base_sem_ext input_path ++ "_achados_simple.txt"

/-- Collaborator outcomes for one segmentation-step run; `none` means the
call succeeds, `some e` that it raises with text `e`. -/
structure InferEnv where
  download_err : Option String := none
  load_result : Except String (List ℚ) := .ok []
  save_mask_err : Option String := none
  upload_mask_err : Option String := none
  upload_achados_err : Option String := none
  upload_err_log_ok : Bool := true
  deriving Repr

/-- The `try` block of `executar_inferencia_simples_gcs`
(`app/ia_infer.py` lines 83-131): download, load, mask computation, the
threshold log line, local save, findings text, and the two uploads; returns
the two output paths, or the text of the first exception. -/
def infer_attempt (env : InferEnv) (input_nifti_gcs_path output_gcs_bucket_name
    output_gcs_folder_for_exam : String) : Except String (String × String) :=
  match (if !(str_startswith input_nifti_gcs_path "gs://") then
          some "URI inválida do GCS. Deve começar com gs://"
         else env.download_err) with
  | some e => .error e
  | none =>
    (match env.load_result with
     | .error e => .error e
     | .ok dados =>
       let _ml := mascara_and_limiar dados
       if !valid_float_format_spec limiar_format_spec then
         .error "Invalid format specifier"
       else
         (match env.save_mask_err with
          | some e => .error e
          | none =>
            if !valid_float_format_spec limiar_format_spec then
              .error "Invalid format specifier"
            else
              (match env.upload_mask_err with
               | some e => .error e
               | none =>
                 (match env.upload_achados_err with
                  | some e => .error e
                  | none => .ok
                    (gcs_path output_gcs_bucket_name
                      (output_mask_gcs_blob_name input_nifti_gcs_path
                        output_gcs_folder_for_exam),
                     gcs_path output_gcs_bucket_name
                      (output_achados_gcs_blob_name input_nifti_gcs_path
                        output_gcs_folder_for_exam))))))

/-- `executar_inferencia_simples_gcs` (`app/ia_infer.py` lines 57-150).
On an exception, the `except` branch (lines 133-150) writes the error text
into the findings file and uploads it under the findings blob key, the
returned findings path being `None` only when that upload itself fails. -/
def executar_inferencia_simples_gcs (env : InferEnv) (input_nifti_gcs_path
    output_gcs_bucket_name output_gcs_folder_for_exam : String) : InferResults :=
  match infer_attempt env input_nifti_gcs_path output_gcs_bucket_name
      output_gcs_folder_for_exam with
  | .ok paths =>
    { success := true
      output_mask_gcs_path := some paths.1
      output_achados_gcs_path := some paths.2 }
  | .error e =>
    let mensagem_erro :=
      "ERRO durante a IA Simples para " ++ input_nifti_gcs_path ++ ": " ++ e
    if env.upload_err_log_ok then
      { success := false
        error_message := some mensagem_erro
        output_achados_gcs_path := some
          (gcs_path output_gcs_bucket_name
            (output_achados_gcs_blob_name input_nifti_gcs_path
              output_gcs_folder_for_exam)) }
    else
      { success := false
        error_message := some mensagem_erro
        output_achados_gcs_path := none }

/-- Claim C3 (code bug): the mask line itself computes the binary
strictly-above-the-95th-percentile mask (its voxel count equalling the
count of voxels strictly above the threshold, an all-zero mask with no
threshold for constant data), but the f-string at `app/ia_infer.py:104`
carries an invalid float format specifier, so every run that reaches it
raises `ValueError` and the step reports failure instead of the claimed
success — here evaluated on the non-constant volume `[0,…,7]` with every
collaborator call succeeding. -/
theorem segmentation_step_format_bug :
    (∀ (l : ℚ) (dados : List ℚ),
      (dados.map fun x => if l < x then (1 : ℕ) else 0).sum =
        dados.countP (fun x => decide (l < x)))
    ∧ mascara_and_limiar (List.replicate 64 (5 : ℚ)) = (List.replicate 64 0, none)
    ∧ mascara_and_limiar [0, 1, 2, 3, 4, 5, 6, 7] =
        ([0, 0, 0, 0, 0, 0, 0, 1], some (133 / 20))
    ∧ valid_float_format_spec limiar_format_spec = false
    ∧ executar_inferencia_simples_gcs { load_result := .ok [0, 1, 2, 3, 4, 5, 6, 7] }
        "gs://rad2-459117-uploads/e1/scan.nii" GCS_OUTPUT_BUCKET "e1" =
      { success := false
        error_message := some
          "ERRO durante a IA Simples para gs://rad2-459117-uploads/e1/scan.nii: Invalid format specifier"
        output_mask_gcs_path := none
        output_achados_gcs_path := some "gs://rad2-459117-outputs/e1/scan_achados_simple.txt" } := by
  have hperc : np_percentile 95 [0, 1, 2, 3, 4, 5, 6, 7] = 133 / 20 := by
    have hsort : List.insertionSort (· ≤ ·) ([0, 1, 2, 3, 4, 5, 6, 7] : List ℚ) =
        [0, 1, 2, 3, 4, 5, 6, 7] := by decide
    have h1 : (((([0, 1, 2, 3, 4, 5, 6, 7] : List ℚ).length : ℚ) - 1) * 95 / 100) =
        133 / 20 := by norm_num
    have hfl : Int.floor ((133 : ℚ) / 20) = 6 := by norm_num [Int.floor_eq_iff]
    have hcl : Int.ceil ((133 : ℚ) / 20) = 7 := by norm_num [Int.ceil_eq_iff]
    simp only [np_percentile, hsort, h1, hfl, hcl]
    rw [show Int.toNat 6 = 6 from rfl, show Int.toNat 7 = 7 from rfl,
      show ([0, 1, 2, 3, 4, 5, 6, 7] : List ℚ).getD 6 0 = 6 from by decide,
      show ([0, 1, 2, 3, 4, 5, 6, 7] : List ℚ).getD 7 0 = 7 from by decide]
    norm_num
  refine ⟨?_, by decide, ?_, by decide, by decide⟩
  · intro l dados
    induction dados with
    | nil => rfl
    | cons a t ih =>
      simp only [List.map_cons, List.sum_cons, List.countP_cons, ih]
      by_cases h : l < a <;> simp [h, Nat.add_comm]
  · simp only [mascara_and_limiar]
    rw [if_neg (by decide)]
    simp only [hperc]
    norm_num

/-- Claim C8: whenever the segmentation step reports failure, its error
message is non-null and its findings path is the error-log upload under the
findings blob key — `none` exactly when that upload also fails; composed
with the background task, such a failed result yields a
`processed_error_simple` record whose findings path points at the error
log. -/
theorem error_log_becomes_findings (env : InferEnv)
    (input_path bucket folder : String)
    (hfail : (executar_inferencia_simples_gcs env input_path bucket folder).success = false) :
    (executar_inferencia_simples_gcs env input_path bucket folder).error_message ≠ none
    ∧ (executar_inferencia_simples_gcs env input_path bucket folder).output_achados_gcs_path =
        (if env.upload_err_log_ok then
          some (gcs_path bucket (output_achados_gcs_blob_name input_path folder))
        else none)
    ∧ (env.upload_err_log_ok = true →
        (update_data (.returned (executar_inferencia_simples_gcs env input_path bucket folder))).status =
          "processed_error_simple"
        ∧ (update_data (.returned (executar_inferencia_simples_gcs env input_path bucket folder))).gcs_output_findings_path =
            some (some (gcs_path bucket (output_achados_gcs_blob_name input_path folder)))) := by
  have htruthy : pyTruthy (some (gcs_path bucket (output_achados_gcs_blob_name input_path folder))) = true := by
    simp [pyTruthy, gcs_path, String.data_append]
  cases hatt : infer_attempt env input_path bucket folder with
  | ok p =>
    exfalso
    simp [executar_inferencia_simples_gcs, hatt] at hfail
  | error e =>
    cases hlog : env.upload_err_log_ok with
    | true =>
      refine ⟨by simp [executar_inferencia_simples_gcs, hatt, hlog], by simp [executar_inferencia_simples_gcs, hatt, hlog], ?_⟩
      intro _
      constructor
      · simp [executar_inferencia_simples_gcs, hatt, hlog, update_data]
      · simp [executar_inferencia_simples_gcs, hatt, hlog, update_data, htruthy]
    | false =>
      refine ⟨by simp [executar_inferencia_simples_gcs, hatt, hlog], by simp [executar_inferencia_simples_gcs, hatt, hlog], ?_⟩
      intro hcontr
      simp at hcontr

/-- Witness for C8: the download raises, the error-log upload succeeds. -/
theorem error_log_becomes_findings_witness :
    (executar_inferencia_simples_gcs { download_err := some "404 blob not found" }
        "gs://b/scan.nii" "out" "e1").error_message ≠ none
    ∧ (executar_inferencia_simples_gcs { download_err := some "404 blob not found" }
        "gs://b/scan.nii" "out" "e1").output_achados_gcs_path =
        (if ({ download_err := some "404 blob not found" } : InferEnv).upload_err_log_ok then
          some (gcs_path "out" (output_achados_gcs_blob_name "gs://b/scan.nii" "e1"))
        else none)
    ∧ (({ download_err := some "404 blob not found" } : InferEnv).upload_err_log_ok = true →
        (update_data (.returned (executar_inferencia_simples_gcs
            { download_err := some "404 blob not found" } "gs://b/scan.nii" "out" "e1"))).status =
          "processed_error_simple"
        ∧ (update_data (.returned (executar_inferencia_simples_gcs
            { download_err := some "404 blob not found" } "gs://b/scan.nii" "out" "e1"))).gcs_output_findings_path =
            some (some (gcs_path "out" (output_achados_gcs_blob_name "gs://b/scan.nii" "e1")))) :=
  error_log_becomes_findings { download_err := some "404 blob not found" }
    "gs://b/scan.nii" "out" "e1" (by decide)

/-! ### Report endpoint (`app/main.py` lines 296-387) -/

/-- Outcome of the findings download inside the report handler: success, a
`FileNotFoundError` (caught at `app/main.py:382`), or any other exception. -/
inductive DownloadOutcome where
  | ok
  | fileNotFound
  | raised (msg : String)
  deriving DecidableEq, Repr

/-- Collaborator outcomes for one report request; the inner findings-text
read (`app/main.py` lines 368-374) catches its own exceptions and only
substitutes placeholder text, so it cannot fail the request and is not
modelled. -/
structure LaudoEnv where
  download : DownloadOutcome := .ok
  render_err : Option String := none
  deriving DecidableEq, Repr

/-- Response of the report endpoint: the `FileResponse` with the generated
PDF, or a raised `HTTPException`. -/
inductive LaudoResponse where
  | fileResponse (filename : String)
  | httpError (code : Nat) (detail : String)
  deriving DecidableEq, Repr

/-- `gerar_laudo_endpoint` (`app/main.py` lines 296-387), from the point
where the exam document has been fetched. -/
def gerar_laudo_endpoint (exam_id : String) (exam_data : ExamRecord)
    (env : LaudoEnv) : LaudoResponse :=
  if exam_data.status ≠ some "processed_success_simple" then
    .httpError 400
      ("Laudo não pode ser gerado. Status do exame: " ++ pyStr exam_data.status)
  else
    let achados_gcs_path := exam_data.gcs_output_findings_path
    if !pyTruthy achados_gcs_path
        || !(str_startswith (achados_gcs_path.getD "") "gs://") then
      .httpError 404 "Caminho do arquivo de achados inválido ou não encontrado nos metadados."
    else
      match env.download with
      | .fileNotFound => .httpError 404 "Arquivo de achados não encontrado no GCS."
      | .raised e => .httpError 500 ("Erro interno ao gerar o laudo PDF: " ++ e)
      | .ok =>
        match env.render_err with
        | some e => .httpError 500 ("Erro interno ao gerar o laudo PDF: " ++ e)
        | none => .fileResponse ("laudo_simples_" ++ exam_id ++ ".pdf")

/-- Claim C7: a report request on an existing exam fails with 400 when the
status is not the success status; with 404 when the status is right but the
findings path is absent or malformed, or the artifact is not found; with
500 when rendering fails; and returns the PDF response exactly when the
status is right, the path well-formed, and download and rendering succeed. -/
theorem laudo_guards (exam_id : String) (d : ExamRecord) (env : LaudoEnv) :
    (d.status ≠ some "processed_success_simple" →
      gerar_laudo_endpoint exam_id d env =
        .httpError 400
          ("Laudo não pode ser gerado. Status do exame: " ++ pyStr d.status))
    ∧ (d.status = some "processed_success_simple" →
        (pyTruthy d.gcs_output_findings_path = false ∨
          str_startswith (d.gcs_output_findings_path.getD "") "gs://" = false) →
        gerar_laudo_endpoint exam_id d env =
          .httpError 404 "Caminho do arquivo de achados inválido ou não encontrado nos metadados.")
    ∧ (d.status = some "processed_success_simple" →
        pyTruthy d.gcs_output_findings_path = true →
        str_startswith (d.gcs_output_findings_path.getD "") "gs://" = true →
        (env.download = .fileNotFound →
          gerar_laudo_endpoint exam_id d env =
            .httpError 404 "Arquivo de achados não encontrado no GCS.")
        ∧ (∀ e, env.download = .raised e →
            gerar_laudo_endpoint exam_id d env =
              .httpError 500 ("Erro interno ao gerar o laudo PDF: " ++ e))
        ∧ (∀ e, env.download = .ok → env.render_err = some e →
            gerar_laudo_endpoint exam_id d env =
              .httpError 500 ("Erro interno ao gerar o laudo PDF: " ++ e)))
    ∧ ((∃ fn, gerar_laudo_endpoint exam_id d env = .fileResponse fn) ↔
        (d.status = some "processed_success_simple"
          ∧ pyTruthy d.gcs_output_findings_path = true
          ∧ str_startswith (d.gcs_output_findings_path.getD "") "gs://" = true
          ∧ env.download = .ok ∧ env.render_err = none)) := by
  refine ⟨?_, ?_, ?_, ?_⟩
  · intro h
    simp [gerar_laudo_endpoint, h]
  · intro hstat hbad
    have hcond : (!pyTruthy d.gcs_output_findings_path
        || !(str_startswith (d.gcs_output_findings_path.getD "") "gs://")) = true := by
      rcases hbad with h | h <;> simp [h]
    simp only [gerar_laudo_endpoint, hstat]
    rw [if_neg (by simp), if_pos hcond]
  · intro hstat htruthy hpre
    have hcond : (!pyTruthy d.gcs_output_findings_path
        || !(str_startswith (d.gcs_output_findings_path.getD "") "gs://")) = false := by
      simp [htruthy, hpre]
    refine ⟨?_, ?_, ?_⟩
    · intro hd
      simp [gerar_laudo_endpoint, hstat, hcond, hd]
    · intro e hd
      simp [gerar_laudo_endpoint, hstat, hcond, hd]
    · intro e hd hr
      simp [gerar_laudo_endpoint, hstat, hcond, hd, hr]
  · constructor
    · rintro ⟨fn, hfn⟩
      simp only [gerar_laudo_endpoint] at hfn
      repeat' split at hfn
      all_goals simp_all
    · rintro ⟨h1, h2, h3, h4, h5⟩
      have hcond : (!pyTruthy d.gcs_output_findings_path
          || !(str_startswith (d.gcs_output_findings_path.getD "") "gs://")) = false := by
        simp [h2, h3]
      refine ⟨"laudo_simples_" ++ exam_id ++ ".pdf", ?_⟩
      simp [gerar_laudo_endpoint, h1, hcond, h4, h5]

/-- Witness for C7: a successful report request on a processed exam. -/
theorem laudo_guards_witness :
    ∃ fn, gerar_laudo_endpoint "e1"
      { status := some "processed_success_simple"
        gcs_output_findings_path := some "gs://out/e1/a.txt" } {} =
      .fileResponse fn :=
  (laudo_guards "e1"
    { status := some "processed_success_simple"
      gcs_output_findings_path := some "gs://out/e1/a.txt" } {}).2.2.2.mpr
    ⟨rfl, by decide, by decide, rfl, rfl⟩

end Rad2
